import Mathlib

/-!
Shallow embedding of the `pyca` repository: the robo curses UI loop
(`src/pyca/robo_ui.py`) and the chain-walk example environment
(`src/pyca/environments/simple.py`).

Modelling conventions:
* keycodes are integers, with the curses timeout sentinel `-1`;
  `curses.KEY_PPAGE = 339`, `curses.KEY_NPAGE = 338`, and the backspace
  toggle key is the literal `127` used in the source;
* game actions are naturals wrapped in `Option` (the engine kickoff passes
  the null action `none`);
* rewards are `Option ℚ` (Python `None` becomes `none`; the float literals
  `1.0` and `100.0` are exact, so rationals model them faithfully);
* one iteration of the dispatch loop (`tick`) returns the successor UI state
  together with the ordered list of externally visible calls it performed,
  so that temporal claims (call order, call counts) become statements about
  that list.
-/

namespace Pyca

/-- Mode enumeration from `robo_ui.Mode`. -/
inductive Mode where
  | Autonomous
  | Demonstration
  | Participation
  deriving DecidableEq, Repr

/-- Embedding of `CursesUi.switch_mode`: `Autonomous` goes to
`Demonstration`, every other mode goes to `Autonomous` (the source has a
bare `else` branch). -/
def switch_mode (m : Mode) : Mode :=
  if m = Mode.Autonomous then Mode.Demonstration else Mode.Autonomous

/-- Curses Page-Up keycode, reserved to show the console. -/
def KEY_PPAGE : Int := 339

/-- Curses Page-Down keycode, reserved to hide the console. -/
def KEY_NPAGE : Int := 338

/-- Externally visible calls one loop iteration can make, in order. -/
inductive Call where
  /-- The Decision Source's `decide()` was invoked and returned `a`. -/
  | decide (a : Nat)
  /-- `game.play(action)` was invoked and returned reward `r`. -/
  | play (a : Option Nat) (r : Option ℚ)
  /-- `self.mode` was assigned the value `m`. -/
  | modeSet (m : Mode)
  /-- `_display` redrew elapsed time, score, mode and boards, followed by
  the console update. -/
  | display
  deriving DecidableEq, Repr

/-- State owned by the UI loop: mode (`self.mode`), return accumulator
(`self._total_return`), console visibility (`paint_console`), and the game
state (abstract, the Game is an external collaborator). -/
structure UiState (σ : Type) where
  mode : Mode
  totalReturn : Option ℚ
  paintConsole : Bool
  game : σ
  deriving Repr

/-- Return-accumulator update from the loop body:
`if self._total_return is None: self._total_return = reward
 elif reward is not None: self._total_return += reward`. -/
def accumUpdate (acc : Option ℚ) (r : Option ℚ) : Option ℚ :=
  match acc with
  | none => r
  | some t =>
    match r with
    | none => some t
    | some x => some (t + x)

/-- One iteration of the dispatch loop in
`CursesUi._init_curses_and_play` (lines 161-203), for one keycode read by
`screen.getch()`. `k2a` is `self._keycodes_to_actions` as a partial map,
`roboA` the value `self.robo.decide()` returns, `play` the Game's `play`
method. Returns the successor state and the ordered calls made. -/
def tick {σ : Type} (k2a : Int → Option Nat) (roboA : Nat)
    (play : σ → Option Nat → σ × Option ℚ)
    (s : UiState σ) (k : Int) : UiState σ × List Call :=
  if k = KEY_PPAGE then
    ({ s with paintConsole := true }, [Call.display])
  else if k = KEY_NPAGE then
    ({ s with paintConsole := false }, [Call.display])
  else if k = 127 then
    ({ s with mode := switch_mode s.mode },
     [Call.modeSet (switch_mode s.mode), Call.display])
  else if k = -1 ∧ s.mode = Mode.Autonomous then
    let a := roboA
    let gr := play s.game (some a)
    ({ s with game := gr.1, totalReturn := accumUpdate s.totalReturn gr.2 },
     [Call.decide a, Call.play (some a) gr.2, Call.display])
  else
    match k2a k with
    | some a =>
      let m := if s.mode = Mode.Autonomous then Mode.Participation else s.mode
      let gr := play s.game (some a)
      ({ s with mode := m, game := gr.1,
                totalReturn := accumUpdate s.totalReturn gr.2 },
       (if s.mode = Mode.Autonomous then [Call.modeSet Mode.Participation]
        else []) ++ [Call.play (some a) gr.2, Call.display])
    | none => (s, [Call.display])

/-- The `while not self._game.game_over` loop: dispatch one tick per
keycode in `keys`, stopping as soon as the Game reports completion. -/
def runLoop {σ : Type} (k2a : Int → Option Nat) (roboA : Nat)
    (play : σ → Option Nat → σ × Option ℚ) (gameOver : σ → Bool)
    (s : UiState σ) : List Int → UiState σ × List Call
  | [] => (s, [])
  | k :: ks =>
    if gameOver s.game then (s, [])
    else
      let p := tick k2a roboA play s k
      let q := runLoop k2a roboA play gameOver p.1 ks
      (q.1, p.2 ++ q.2)

/-- Reserved-key predicate from the startup check (lines 106-112). -/
def isReserved (k : Int) : Bool :=
  k = KEY_PPAGE || k = KEY_NPAGE

/-- The startup scan over `self._keycodes_to_actions` (lines 106-112):
the first binding using a reserved key, if any. -/
def checkBindings (bs : List (Int × Nat)) : Option (Int × Nat) :=
  bs.find? (fun kv => isReserved kv.1)

/-- State set up by `CursesUi.__init__` and the kickoff: the constructor
sets `self.mode = Mode.Autonomous` and the console starts hidden; the
kickoff observation and reward come from `its_showtime`, the reward being
assigned to `self._total_return`. -/
def initUiState {σ : Type} (g0 : σ) (r0 : Option ℚ) : UiState σ :=
  ⟨Mode.Autonomous, r0, false, g0⟩

/-- Embedding of `_init_curses_and_play` end to end: the reserved-key scan
runs first and raises `ValueError` (modelled as `Except.error`, carrying
the offending key and action) before the Game's `its_showtime` kickoff and
before the loop; otherwise the kickoff reward seeds `self._total_return`
(which `__init__` starts as `None`), the first frame is displayed, and the
loop runs on the supplied keycodes. -/
def initAndPlay {σ : Type} (bs : List (Int × Nat)) (roboA : Nat)
    (play : σ → Option Nat → σ × Option ℚ) (gameOver : σ → Bool)
    (showtime : σ × Option ℚ) (keys : List Int) :
    Except (Int × Nat) (UiState σ × List Call) :=
  match checkBindings bs with
  | some kv => Except.error kv
  | none =>
    let s0 : UiState σ := initUiState showtime.1 showtime.2
    let p := runLoop (fun k => bs.lookup k) roboA play gameOver s0 keys
    Except.ok (p.1, Call.display :: p.2)

/-! Mode transition functions, for checking the loop's mode dynamics
against the spec's §4.1 table. -/

/-- Input events as classified by §4.1: the toggle key, a key bound in the
KeyBinding Table, or anything else (console keys, unbound keys, the
autonomous-sentinel tick). -/
inductive ModeEvent where
  | toggle
  | boundKey
  | other
  deriving DecidableEq, Repr

/-- Modelled from the spec (§4.1 transition table): toggle swaps
`Autonomous` and `Demonstration` and is an identity on `Participation`;
a bound key sends `Autonomous` to `Participation` and leaves the other
modes alone; no other event changes state. -/
def specModeTransition : Mode → ModeEvent → Mode
  | Mode.Autonomous, ModeEvent.toggle => Mode.Demonstration
  | Mode.Demonstration, ModeEvent.toggle => Mode.Autonomous
  | Mode.Participation, ModeEvent.toggle => Mode.Participation
  | Mode.Autonomous, ModeEvent.boundKey => Mode.Participation
  | m, ModeEvent.boundKey => m
  | m, ModeEvent.other => m

/-- Mode transition table read off the source's branches: identical to
`specModeTransition` except that `switch_mode`'s bare `else` sends
`Participation` to `Autonomous` on toggle. -/
def codeModeTransition : Mode → ModeEvent → Mode
  | Mode.Autonomous, ModeEvent.toggle => Mode.Demonstration
  | Mode.Demonstration, ModeEvent.toggle => Mode.Autonomous
  | Mode.Participation, ModeEvent.toggle => Mode.Autonomous
  | Mode.Autonomous, ModeEvent.boundKey => Mode.Participation
  | m, ModeEvent.boundKey => m
  | m, ModeEvent.other => m

/-- Classification of a raw keycode into a §4.1 event, following the
source's `elif` chain: console keys first, then the toggle key `127`, then
the autonomous sentinel (which depends on the current mode), then the
KeyBinding Table lookup. -/
def classify (k2a : Int → Option Nat) (m : Mode) (k : Int) : ModeEvent :=
  if k = KEY_PPAGE ∨ k = KEY_NPAGE then ModeEvent.other
  else if k = 127 then ModeEvent.toggle
  else if k = -1 ∧ m = Mode.Autonomous then ModeEvent.other
  else if (k2a k).isSome then ModeEvent.boundKey
  else ModeEvent.other

/-! Observation cropper/repainter pipeline (`crop_and_repaint`,
lines 130-143). A board buffer is modelled by its identity: which
allocation backs it. Each cropper owns the view it produces; the repainter
owns a single output buffer it may overwrite and reuse across calls (the
worst case its contract allows, and the reason the source deep-copies);
`copy.deepcopy` allocates a fresh buffer per display slot. -/

/-- Identity of the buffer backing a displayed board. -/
inductive BufId where
  /-- The view produced and owned by cropper `i`. -/
  | cropOut (i : Nat)
  /-- The repainter's own reusable output buffer. -/
  | repaintOut
  /-- The fresh buffer `copy.deepcopy` allocates for display slot `i`. -/
  | deepCopy (i : Nat)
  deriving DecidableEq, Repr

/-- Embedding of the `crop_and_repaint` helper: apply every cropper, then,
if a repainter is configured, return its output directly when there is a
single subwindow and a deep copy of its output per subwindow otherwise. -/
def crop_and_repaint (numCroppers : Nat) (hasRepainter : Bool) :
    List BufId :=
  let observations := (List.range numCroppers).map BufId.cropOut
  if hasRepainter then
    if observations.length = 1 then [BufId.repaintOut]
    else (List.range numCroppers).map BufId.deepCopy
  else observations

/-! Chain-walk environment (`src/pyca/environments/simple.py`). -/

/-- The ASCII art of the chain-walk board. -/
def GAME_ART : List String := ["..P..................."]

/-- Board width: the number of columns of the art (`corner[1]`). -/
def chainWidth : Nat := (GAME_ART.headD "").length

/-- The player's starting column: the position of `P` in the art row. -/
def startCol : Nat := ((GAME_ART.headD "").toList.indexOf 'P')

/-- Chain-walk game state: the player's column and the engine's
`game_over` flag. -/
structure ChainState where
  col : Nat
  over : Bool
  deriving DecidableEq, Repr

/-- Embedding of `PlayerSprite.update` (lines 52-67): action `0` walks one
column west, action `1` one column east (the `MazeWalker` prefab the
sprite extends blocks moves off the board, so the column is clamped to
`[0, corner1 - 1]`); any other action, including the engine's `None`
kickoff action, moves nothing. The termination check then runs
unconditionally: at column `0` reward `1.0` and game over, at column
`corner1 - 1` reward `100.0` and game over, otherwise no reward. Returns
(new column, reward, terminated). -/
def playerUpdate (corner1 : Nat) (col : Nat) (action : Option Nat) :
    Nat × Option ℚ × Bool :=
  let c : Nat :=
    match action with
    | some 0 => col - 1
    | some 1 => min (col + 1) (corner1 - 1)
    | _ => col
  if c = 0 then (c, some 1, true)
  else if c = corner1 - 1 then (c, some 100, true)
  else (c, none, false)

/-- The chain-walk Game's `play` method: one engine step updates the
player sprite and reports its reward and the termination flag. -/
def chainPlay (s : ChainState) (a : Option Nat) : ChainState × Option ℚ :=
  let p := playerUpdate chainWidth s.col a
  (⟨p.1, p.2.2⟩, p.2.1)

/-- The chain-walk Game's `game_over` flag. -/
def chainOver (s : ChainState) : Bool := s.over

/-- A sequence of engine steps, returning the final state and the reward
reported by the last step (`none` for the empty sequence). -/
def playSeq (s : ChainState) (acts : List (Option Nat)) :
    ChainState × Option ℚ :=
  acts.foldl (fun p a => chainPlay p.1 a) (s, none)

/-- The chain-walk Game's `its_showtime` kickoff: one engine step from the
art's starting position with the null action. -/
def chainShowtime : ChainState × Option ℚ :=
  chainPlay ⟨startCol, false⟩ none

/-- The `keys_to_actions` table `SimpleEnvironment.play_as_robot` passes:
`curses.KEY_LEFT` (260) to action 0, `curses.KEY_RIGHT` (261) to action 1. -/
def chainBindings : List (Int × Nat) := [(260, 0), (261, 1)]

/-- Embedding of `RandomAgent.decide`: it always returns `1`. -/
def RandomAgent_decide : Nat := 1

/-- Rewards observed through the Game's `play` calls in a trace, in
order, nulls included. -/
def rewardsOf (tr : List Call) : List (Option ℚ) :=
  tr.filterMap fun c =>
    match c with
    | Call.play _ r => some r
    | _ => none

/-- Running total described by the spec's accumulator invariant: `none`
while every observed reward is null, otherwise the sum of the non-null
rewards (nulls contributing nothing). -/
def optSum (rs : List (Option ℚ)) : Option ℚ :=
  if rs.all Option.isNone then none
  else some (rs.filterMap id).sum

/-- Whether a call invokes the Decision Source's `decide()`. -/
def isDecide : Call → Bool
  | Call.decide _ => true
  | _ => false

/-! Helper lemmas about the return accumulator and the loop. -/

theorem accumUpdate_foldl_some (rs : List (Option ℚ)) (t : ℚ) :
    rs.foldl accumUpdate (some t) = some (t + (rs.filterMap id).sum) := by
  induction rs generalizing t with
  | nil => simp
  | cons r rs ih =>
    cases r with
    | none => simp [accumUpdate, ih]
    | some x => simp [accumUpdate, ih, add_assoc]

theorem accumUpdate_foldl_none (rs : List (Option ℚ)) :
    rs.foldl accumUpdate none = optSum rs := by
  cases rs with
  | nil => simp [optSum]
  | cons r rs =>
    cases r with
    | none =>
      rw [show ((none :: rs : List (Option ℚ)).foldl accumUpdate none)
            = rs.foldl accumUpdate none from rfl, accumUpdate_foldl_none rs]
      simp [optSum]
    | some x =>
      rw [show ((some x :: rs : List (Option ℚ)).foldl accumUpdate none)
            = rs.foldl accumUpdate (some x) from rfl, accumUpdate_foldl_some]
      simp [optSum]

theorem tick_totalReturn {σ : Type} (k2a : Int → Option Nat) (roboA : Nat)
    (play : σ → Option Nat → σ × Option ℚ) (s : UiState σ) (k : Int) :
    (tick k2a roboA play s k).1.totalReturn
      = (rewardsOf (tick k2a roboA play s k).2).foldl accumUpdate
          s.totalReturn := by
  by_cases hp : k = KEY_PPAGE
  · simp [tick, hp, rewardsOf]
  · by_cases hn : k = KEY_NPAGE
    · simp [tick, hp, hn, KEY_PPAGE, KEY_NPAGE, rewardsOf]
    · by_cases ht : k = 127
      · simp [tick, hp, hn, ht, KEY_PPAGE, KEY_NPAGE, rewardsOf]
      · by_cases ha : k = -1 ∧ s.mode = Mode.Autonomous
        · simp [tick, hp, hn, ht, ha, KEY_PPAGE, KEY_NPAGE, rewardsOf]
        · rcases hk : k2a k with _ | a
          · simp [tick, hp, hn, ht, ha, hk, rewardsOf]
          · by_cases hm : s.mode = Mode.Autonomous
            · have hne : ¬k = -1 := fun h => ha ⟨h, hm⟩
              simp [tick, hp, hn, ht, hne, hk, hm, rewardsOf]
            · simp [tick, hp, hn, ht, ha, hk, hm, rewardsOf]

theorem runLoop_totalReturn {σ : Type} (k2a : Int → Option Nat)
    (roboA : Nat) (play : σ → Option Nat → σ × Option ℚ)
    (gameOver : σ → Bool) (ks : List Int) (s : UiState σ) :
    (runLoop k2a roboA play gameOver s ks).1.totalReturn
      = (rewardsOf (runLoop k2a roboA play gameOver s ks).2).foldl
          accumUpdate s.totalReturn := by
  induction ks generalizing s with
  | nil => simp [runLoop, rewardsOf]
  | cons k ks ih =>
    by_cases hg : gameOver s.game
    · simp [runLoop, hg, rewardsOf]
    · have hp := tick_totalReturn k2a roboA play s k
      have hq := ih (tick k2a roboA play s k).1
      simp only [runLoop, hg, Bool.false_eq_true, if_false]
      rw [hq, hp, rewardsOf, rewardsOf, rewardsOf, List.filterMap_append,
        List.foldl_append]

theorem tick_show_eq {σ : Type} (k2a : Int → Option Nat) (roboA : Nat)
    (play : σ → Option Nat → σ × Option ℚ) (s : UiState σ) :
    tick k2a roboA play s KEY_PPAGE
      = ({ s with paintConsole := true }, [Call.display]) := by
  simp [tick]

theorem tick_hide_eq {σ : Type} (k2a : Int → Option Nat) (roboA : Nat)
    (play : σ → Option Nat → σ × Option ℚ) (s : UiState σ) :
    tick k2a roboA play s KEY_NPAGE
      = ({ s with paintConsole := false }, [Call.display]) := by
  simp [tick, KEY_PPAGE, KEY_NPAGE]

theorem tick_toggle_eq {σ : Type} (k2a : Int → Option Nat) (roboA : Nat)
    (play : σ → Option Nat → σ × Option ℚ) (s : UiState σ) :
    tick k2a roboA play s 127
      = ({ s with mode := switch_mode s.mode },
         [Call.modeSet (switch_mode s.mode), Call.display]) := by
  simp [tick, KEY_PPAGE, KEY_NPAGE]

theorem tick_robo_eq {σ : Type} (k2a : Int → Option Nat) (roboA : Nat)
    (play : σ → Option Nat → σ × Option ℚ) (s : UiState σ)
    (h : s.mode = Mode.Autonomous) :
    tick k2a roboA play s (-1)
      = ({ s with game := (play s.game (some roboA)).1,
                  totalReturn := accumUpdate s.totalReturn
                    (play s.game (some roboA)).2 },
         [Call.decide roboA,
          Call.play (some roboA) (play s.game (some roboA)).2,
          Call.display]) := by
  simp [tick, KEY_PPAGE, KEY_NPAGE, h]

theorem tick_bound_eq {σ : Type} (k2a : Int → Option Nat) (roboA : Nat)
    (play : σ → Option Nat → σ × Option ℚ) (s : UiState σ) (k : Int)
    (a : Nat) (hp : k ≠ KEY_PPAGE) (hn : k ≠ KEY_NPAGE) (ht : k ≠ 127)
    (hs : ¬(k = -1 ∧ s.mode = Mode.Autonomous)) (hk : k2a k = some a) :
    tick k2a roboA play s k
      = ({ s with mode := if s.mode = Mode.Autonomous
                    then Mode.Participation else s.mode,
                  game := (play s.game (some a)).1,
                  totalReturn := accumUpdate s.totalReturn
                    (play s.game (some a)).2 },
         (if s.mode = Mode.Autonomous then [Call.modeSet Mode.Participation]
          else []) ++
           [Call.play (some a) (play s.game (some a)).2, Call.display]) := by
  by_cases hm : s.mode = Mode.Autonomous
  · have hne : ¬k = -1 := fun h => hs ⟨h, hm⟩
    simp [tick, hp, hn, ht, hne, hk, hm]
  · simp [tick, hp, hn, ht, hs, hk, hm]

theorem tick_noop_eq {σ : Type} (k2a : Int → Option Nat) (roboA : Nat)
    (play : σ → Option Nat → σ × Option ℚ) (s : UiState σ) (k : Int)
    (hp : k ≠ KEY_PPAGE) (hn : k ≠ KEY_NPAGE) (ht : k ≠ 127)
    (hs : ¬(k = -1 ∧ s.mode = Mode.Autonomous)) (hk : k2a k = none) :
    tick k2a roboA play s k = (s, [Call.display]) := by
  simp [tick, hp, hn, ht, hs, hk]

theorem codeModeTransition_other (m : Mode) :
    codeModeTransition m ModeEvent.other = m := by
  cases m <;> rfl

/-! Claim theorems. -/

/-- C1, counterexample: with the chain-walk bindings and a state in
`Participation`, receiving the toggle key `127` does not leave the mode at
`Participation` — `switch_mode`'s bare `else` sends it to `Autonomous`. -/
theorem C1_toggle_counterexample :
    (tick (fun k => chainBindings.lookup k) 1 chainPlay
        ⟨Mode.Participation, none, false, ⟨2, false⟩⟩ 127).1.mode
        = Mode.Autonomous
    ∧ ¬ (tick (fun k => chainBindings.lookup k) 1 chainPlay
        ⟨Mode.Participation, none, false, ⟨2, false⟩⟩ 127).1.mode
        = Mode.Participation := by
  decide

/-- C1, amended: every toggle tick updates the mode by `switch_mode`,
which maps `Autonomous` to `Demonstration` and both `Demonstration` and
`Participation` to `Autonomous`; the toggle is not an identity on
`Participation`. -/
theorem C1_toggle_amended :
    (∀ (σ : Type) (k2a : Int → Option Nat) (roboA : Nat)
      (play : σ → Option Nat → σ × Option ℚ) (s : UiState σ),
      (tick k2a roboA play s 127).1.mode = switch_mode s.mode)
    ∧ switch_mode Mode.Autonomous = Mode.Demonstration
    ∧ switch_mode Mode.Demonstration = Mode.Autonomous
    ∧ switch_mode Mode.Participation = Mode.Autonomous := by
  refine ⟨fun σ k2a roboA play s => ?_, by decide, by decide, by decide⟩
  rw [tick_toggle_eq]

/-- C2, counterexample: the chain-walk board is 22 columns wide (not 23),
the player starts at column 2 (not 1), and one move-left action from the
start only reaches column 1 — no reward, and the game is not over. -/
theorem C2_chain_counterexample :
    chainWidth = 22 ∧ ¬ chainWidth = 23
    ∧ startCol = 2 ∧ ¬ startCol = 1
    ∧ chainPlay ⟨startCol, false⟩ (some 0) = (⟨1, false⟩, none)
    ∧ ¬ (chainPlay ⟨startCol, false⟩ (some 0)).1.over = true := by
  decide

/-- C2, amended: on the 22-column board with the player at column 2,
19 move-right actions from the start reach the rightmost cell (column 21)
with reward `100` and game over, and 2 move-left actions reach the
leftmost cell (column 0) with reward `1` and game over; the kickoff leaves
the player at column 2 with no reward. -/
theorem C2_chain_amended :
    chainShowtime = (⟨2, false⟩, none)
    ∧ playSeq ⟨2, false⟩ (List.replicate 19 (some 1)) = (⟨21, true⟩, some 100)
    ∧ playSeq ⟨2, false⟩ (List.replicate 2 (some 0)) = (⟨0, true⟩, some 1) := by
  decide

/-- C9: the packaged Decision Source is constant — `RandomAgent.decide`
always returns action `1` — so on any autonomous sentinel tick of the
chain walk the player's column advances rightward (clamped at the right
edge). -/
theorem C9_random_agent :
    RandomAgent_decide = 1
    ∧ ∀ (s : UiState ChainState), s.mode = Mode.Autonomous →
        (tick (fun k => chainBindings.lookup k) RandomAgent_decide chainPlay
            s (-1)).1.game.col = min (s.game.col + 1) (chainWidth - 1) := by
  refine ⟨rfl, fun s h => ?_⟩
  rw [tick_robo_eq _ _ _ _ h]
  show (chainPlay s.game (some RandomAgent_decide)).1.col
      = min (s.game.col + 1) (chainWidth - 1)
  simp only [chainPlay, playerUpdate, RandomAgent_decide]
  split_ifs <;> rfl

/-- C9, witness: from an autonomous state at column 2, the sentinel tick
with the packaged agent advances the player to column 3. -/
theorem C9_random_agent_witness :
    (tick (fun k => chainBindings.lookup k) RandomAgent_decide chainPlay
        ⟨Mode.Autonomous, none, false, ⟨2, false⟩⟩ (-1)).1.game.col
      = min (2 + 1) (chainWidth - 1) :=
  C9_random_agent.2 ⟨Mode.Autonomous, none, false, ⟨2, false⟩⟩ rfl

/-- C10: any action other than `0` and `1` (the engine's `None` kickoff
action included) leaves the player's column unchanged, and the
unconditional edge check then terminates the episode exactly when the
player already sits at the leftmost or rightmost column. -/
theorem C10_other_actions :
    ∀ (corner1 col : Nat) (a : Option Nat), a ≠ some 0 → a ≠ some 1 →
      (playerUpdate corner1 col a).1 = col
      ∧ ((playerUpdate corner1 col a).2.2 = true
          ↔ col = 0 ∨ col = corner1 - 1) := by
  intro corner1 col a h0 h1
  have key : playerUpdate corner1 col a
      = if col = 0 then (col, some 1, true)
        else if col = corner1 - 1 then (col, some 100, true)
        else (col, none, false) := by
    rcases a with _ | n
    · rfl
    · match n with
      | 0 => exact absurd rfl h0
      | 1 => exact absurd rfl h1
      | m + 2 => rfl
  rw [key]
  constructor
  · split_ifs <;> rfl
  · split_ifs with hz he
    · simp [hz]
    · simp [hz, he]
    · simp [hz, he]

/-- C10, witness: the null kickoff action at the leftmost column leaves
the column at 0 and terminates (the left edge was already reached). -/
theorem C10_other_actions_witness :
    (playerUpdate 22 0 none).1 = 0
    ∧ ((playerUpdate 22 0 none).2.2 = true ↔ 0 = 0 ∨ 0 = 22 - 1) :=
  C10_other_actions 22 0 none (by decide) (by decide)

/-- C3: starting from the kickoff reward, the loop's return accumulator
always equals `optSum` of the rewards observed so far (the kickoff reward
followed by one reward per `play` call): `none` while every observed
reward is null, and the sum of the non-null rewards (nulls contributing 0)
otherwise; moreover no tick ever resets a non-null accumulator to null. -/
theorem C3_return_accumulator :
    (∀ (σ : Type) (k2a : Int → Option Nat) (roboA : Nat)
      (play : σ → Option Nat → σ × Option ℚ) (gameOver : σ → Bool)
      (g0 : σ) (r0 : Option ℚ) (keys : List Int),
      (runLoop k2a roboA play gameOver (initUiState g0 r0)
          keys).1.totalReturn
        = optSum (r0 :: rewardsOf
            (runLoop k2a roboA play gameOver (initUiState g0 r0) keys).2))
    ∧ (∀ (σ : Type) (k2a : Int → Option Nat) (roboA : Nat)
      (play : σ → Option Nat → σ × Option ℚ) (s : UiState σ) (k : Int),
      ¬ s.totalReturn = none →
      ¬ (tick k2a roboA play s k).1.totalReturn = none) := by
  constructor
  · intro σ k2a roboA play gameOver g0 r0 keys
    rw [runLoop_totalReturn, ← accumUpdate_foldl_none]
    rfl
  · intro σ k2a roboA play s k hs
    rw [tick_totalReturn]
    rcases h : s.totalReturn with _ | t
    · exact absurd h hs
    · rw [accumUpdate_foldl_some]
      simp

/-- C3, witness: a concrete three-tick chain-walk run satisfies the
accumulator characterisation, and a tick from an accumulator holding `3`
leaves it non-null. -/
theorem C3_return_accumulator_witness :
    ((runLoop (fun k => chainBindings.lookup k) 1 chainPlay chainOver
        (initUiState ⟨2, false⟩ none) [-1, 999, 260]).1.totalReturn
      = optSum (none :: rewardsOf
          (runLoop (fun k => chainBindings.lookup k) 1 chainPlay chainOver
            (initUiState ⟨2, false⟩ none) [-1, 999, 260]).2))
    ∧ ¬ (tick (fun k => chainBindings.lookup k) 1 chainPlay
        ⟨Mode.Autonomous, some 3, false, ⟨2, false⟩⟩ 260).1.totalReturn
        = none :=
  ⟨C3_return_accumulator.1 ChainState (fun k => chainBindings.lookup k) 1
      chainPlay chainOver ⟨2, false⟩ none [-1, 999, 260],
   C3_return_accumulator.2 ChainState (fun k => chainBindings.lookup k) 1
      chainPlay ⟨Mode.Autonomous, some 3, false, ⟨2, false⟩⟩ 260
      (by decide)⟩

/-- C5: the Decision Source's `decide()` is invoked on a tick exactly when
the read keycode is the `-1` sentinel and the mode is `Autonomous`; on
such a tick it is called once and its returned action is passed to the
Game's `play`, and on every other tick it is not called at all. -/
theorem C5_decision_source :
    ∀ (σ : Type) (k2a : Int → Option Nat) (roboA : Nat)
      (play : σ → Option Nat → σ × Option ℚ) (s : UiState σ) (k : Int),
      ((tick k2a roboA play s k).2.countP (fun c => isDecide c)
        = if k = -1 ∧ s.mode = Mode.Autonomous then 1 else 0)
      ∧ (k = -1 ∧ s.mode = Mode.Autonomous →
          (tick k2a roboA play s k).2
            = [Call.decide roboA,
               Call.play (some roboA) (play s.game (some roboA)).2,
               Call.display]) := by
  intro σ k2a roboA play s k
  by_cases ha : k = -1 ∧ s.mode = Mode.Autonomous
  · obtain ⟨hk, hm⟩ := ha
    subst hk
    rw [if_pos ⟨rfl, hm⟩, tick_robo_eq _ _ _ _ hm]
    exact ⟨rfl, fun _ => rfl⟩
  · rw [if_neg ha]
    refine ⟨?_, fun h => absurd h ha⟩
    by_cases hp : k = KEY_PPAGE
    · subst hp; rw [tick_show_eq]; rfl
    · by_cases hn : k = KEY_NPAGE
      · subst hn; rw [tick_hide_eq]; rfl
      · by_cases ht : k = 127
        · subst ht; rw [tick_toggle_eq]; rfl
        · rcases hk : k2a k with _ | a
          · rw [tick_noop_eq k2a roboA play s k hp hn ht ha hk]; rfl
          · rw [tick_bound_eq k2a roboA play s k a hp hn ht ha hk]
            by_cases hm : s.mode = Mode.Autonomous <;> simp [hm, isDecide]

/-- C5, witness: on a concrete autonomous sentinel tick of the chain walk,
`decide()` runs once and its action `1` is the one played. -/
theorem C5_decision_source_witness :
    (tick (fun k => chainBindings.lookup k) 1 chainPlay
        ⟨Mode.Autonomous, none, false, ⟨2, false⟩⟩ (-1)).2
      = [Call.decide 1, Call.play (some 1) (chainPlay ⟨2, false⟩ (some 1)).2,
         Call.display] :=
  (C5_decision_source ChainState (fun k => chainBindings.lookup k) 1
      chainPlay ⟨Mode.Autonomous, none, false, ⟨2, false⟩⟩ (-1)).2
    ⟨rfl, rfl⟩

/-- C7: the pipeline always emits one view per configured cropper; with
more than one view the emitted buffers are pairwise distinct (each slot
independently owned), and with exactly one view and a repainter the
repainter's own buffer is returned directly, without a defensive copy. -/
theorem C7_observation_set :
    (∀ (n : Nat) (rep : Bool), (crop_and_repaint n rep).length = n)
    ∧ (∀ (n : Nat) (rep : Bool), 1 < n → (crop_and_repaint n rep).Nodup)
    ∧ crop_and_repaint 1 true = [BufId.repaintOut] := by
  refine ⟨fun n rep => ?_, fun n rep hn => ?_, by decide⟩
  · cases rep with
    | false => simp [crop_and_repaint]
    | true =>
      simp only [crop_and_repaint, if_true]
      split_ifs with h1
      · simpa using h1.symm
      · simp
  · cases rep with
    | false =>
      simp only [crop_and_repaint, Bool.false_eq_true, if_false]
      exact (List.nodup_range n).map (fun i j hij => BufId.cropOut.inj hij)
    | true =>
      simp only [crop_and_repaint, if_true]
      split_ifs with h1
      · exact List.nodup_singleton _
      · exact (List.nodup_range n).map (fun i j hij => BufId.deepCopy.inj hij)

/-- C7, witness: three repainted views are three pairwise distinct
buffers, and two plain cropped views do not alias either. -/
theorem C7_observation_set_witness :
    (crop_and_repaint 3 true).length = 3
    ∧ (crop_and_repaint 3 true).Nodup
    ∧ (crop_and_repaint 2 false).Nodup :=
  ⟨C7_observation_set.1 3 true,
   C7_observation_set.2.1 3 true (by decide),
   C7_observation_set.2.1 2 false (by decide)⟩

/-- C8: a tick whose key is unbound and unreserved — not a console key,
not the toggle, not covered by the KeyBinding Table, and not the sentinel
while autonomous — changes nothing (mode, accumulator, console flag and
game state are untouched, no action is sent, `decide` is not called) yet
still performs the redraw. -/
theorem C8_unbound_key_noop :
    ∀ (σ : Type) (k2a : Int → Option Nat) (roboA : Nat)
      (play : σ → Option Nat → σ × Option ℚ) (s : UiState σ) (k : Int),
      k ≠ KEY_PPAGE → k ≠ KEY_NPAGE → k ≠ 127 → k2a k = none →
      ¬(k = -1 ∧ s.mode = Mode.Autonomous) →
      tick k2a roboA play s k = (s, [Call.display]) :=
  fun _ k2a roboA play s k hp hn ht hk hs =>
    tick_noop_eq k2a roboA play s k hp hn ht hs hk

/-- C8, witness: the unbound key `999` in `Demonstration` mode leaves the
whole UI state unchanged and only redraws. -/
theorem C8_unbound_key_noop_witness :
    tick (fun k => chainBindings.lookup k) 1 chainPlay
        ⟨Mode.Demonstration, some 5, true, ⟨2, false⟩⟩ 999
      = (⟨Mode.Demonstration, some 5, true, ⟨2, false⟩⟩, [Call.display]) :=
  C8_unbound_key_noop ChainState (fun k => chainBindings.lookup k) 1
    chainPlay ⟨Mode.Demonstration, some 5, true, ⟨2, false⟩⟩ 999
    (by decide) (by decide) (by decide) (by decide) (by decide)

/-- C4, counterexample: the loop's mode dynamics disagree with the spec's
§4.1 table at a concrete tick — from `Participation`, the toggle key is
classified as a toggle event, §4.1 keeps the mode at `Participation`, but
the code moves it to `Autonomous`. -/
theorem C4_mode_rules_counterexample :
    classify (fun k => chainBindings.lookup k) Mode.Participation 127
        = ModeEvent.toggle
    ∧ ¬ (tick (fun k => chainBindings.lookup k) 1 chainPlay
        ⟨Mode.Participation, none, false, ⟨2, false⟩⟩ 127).1.mode
        = specModeTransition Mode.Participation ModeEvent.toggle := by
  decide

/-- C4, amended: the mode is `Autonomous` at construction, and every tick
updates it exactly by the code's transition table (which differs from
§4.1 only in sending `Participation` to `Autonomous` on toggle); pressing
a key bound in the KeyBinding Table — one not shadowed by the console,
toggle or sentinel codes — while `Autonomous` sets the mode to
`Participation` on that same tick, the mode assignment preceding the
`play` call in the tick's call order. -/
theorem C4_mode_rules_amended :
    (∀ (σ : Type) (g0 : σ) (r0 : Option ℚ),
      (initUiState g0 r0).mode = Mode.Autonomous)
    ∧ (∀ (σ : Type) (k2a : Int → Option Nat) (roboA : Nat)
      (play : σ → Option Nat → σ × Option ℚ) (s : UiState σ) (k : Int),
      (tick k2a roboA play s k).1.mode
        = codeModeTransition s.mode (classify k2a s.mode k))
    ∧ (∀ (σ : Type) (k2a : Int → Option Nat) (roboA : Nat)
      (play : σ → Option Nat → σ × Option ℚ) (s : UiState σ) (k : Int)
      (a : Nat), k ≠ KEY_PPAGE → k ≠ KEY_NPAGE → k ≠ 127 → k ≠ -1 →
      k2a k = some a → s.mode = Mode.Autonomous →
      tick k2a roboA play s k
        = ({ s with mode := Mode.Participation,
                    game := (play s.game (some a)).1,
                    totalReturn := accumUpdate s.totalReturn
                      (play s.game (some a)).2 },
           [Call.modeSet Mode.Participation,
            Call.play (some a) (play s.game (some a)).2,
            Call.display])) := by
  refine ⟨fun σ g0 r0 => rfl, fun σ k2a roboA play s k => ?_, ?_⟩
  · obtain ⟨m, tr, pc, g⟩ := s
    by_cases hp : k = KEY_PPAGE
    · subst hp
      rw [tick_show_eq]
      simp [classify, codeModeTransition_other]
    · by_cases hn : k = KEY_NPAGE
      · subst hn
        rw [tick_hide_eq]
        simp [classify, KEY_PPAGE, KEY_NPAGE, codeModeTransition_other]
      · by_cases ht : k = 127
        · subst ht
          rw [tick_toggle_eq]
          have hcl : classify k2a m 127 = ModeEvent.toggle := by
            simp [classify, KEY_PPAGE, KEY_NPAGE]
          rw [hcl]
          show switch_mode m = codeModeTransition m ModeEvent.toggle
          cases m <;> decide
        · by_cases ha : k = -1 ∧ m = Mode.Autonomous
          · obtain ⟨hkk, hm⟩ := ha
            subst hkk
            rw [tick_robo_eq _ _ _ _ hm]
            have hcl : classify k2a m (-1) = ModeEvent.other := by
              simp [classify, KEY_PPAGE, KEY_NPAGE, hm]
            rw [hcl]
            exact (codeModeTransition_other m).symm
          · rcases hk : k2a k with _ | a
            · rw [tick_noop_eq k2a roboA play _ k hp hn ht ha hk]
              have hcl : classify k2a m k = ModeEvent.other := by
                simp [classify, hp, hn, ht, ha, hk]
              rw [hcl]
              exact (codeModeTransition_other m).symm
            · rw [tick_bound_eq k2a roboA play _ k a hp hn ht ha hk]
              have hcl : classify k2a m k = ModeEvent.boundKey := by
                simp [classify, hp, hn, ht, ha, hk]
              rw [hcl]
              show (if m = Mode.Autonomous then Mode.Participation else m)
                  = codeModeTransition m ModeEvent.boundKey
              cases m <;> decide
  · intro σ k2a roboA play s k a hp hn ht hne hk hm
    have hs : ¬(k = -1 ∧ s.mode = Mode.Autonomous) := fun hc => hne hc.1
    rw [tick_bound_eq k2a roboA play s k a hp hn ht hs hk]
    simp [hm]

/-- C4, witness: pressing the concrete bound left-arrow key (260) from an
autonomous chain-walk state yields `Participation` with the mode
assignment preceding the `play` call. -/
theorem C4_mode_rules_amended_witness :
    tick (fun k => chainBindings.lookup k) 1 chainPlay
        ⟨Mode.Autonomous, none, false, ⟨2, false⟩⟩ 260
      = (⟨Mode.Participation, accumUpdate none (chainPlay ⟨2, false⟩ (some 0)).2,
          false, (chainPlay ⟨2, false⟩ (some 0)).1⟩,
         [Call.modeSet Mode.Participation,
          Call.play (some 0) (chainPlay ⟨2, false⟩ (some 0)).2,
          Call.display]) :=
  C4_mode_rules_amended.2.2 ChainState (fun k => chainBindings.lookup k) 1
    chainPlay ⟨Mode.Autonomous, none, false, ⟨2, false⟩⟩ 260 0
    (by decide) (by decide) (by decide) (by decide) rfl rfl

/-- C6: binding a reserved console key is a configuration error raised
before the dispatch loop — the startup scan reports a reserved binding
(key and action) whenever one exists, the error is independent of the
input keys and of the Game's kickoff (so it can only arise before play),
and with no reserved binding the run always succeeds, so the error never
occurs during play. -/
theorem C6_reserved_binding_error :
    ∀ (σ : Type) (bs : List (Int × Nat)) (roboA : Nat)
      (play : σ → Option Nat → σ × Option ℚ) (gameOver : σ → Bool)
      (showtime : σ × Option ℚ) (keys : List Int),
      ((∃ kv ∈ bs, isReserved kv.1 = true) →
        ∃ kv ∈ bs, isReserved kv.1 = true ∧
          initAndPlay bs roboA play gameOver showtime keys
            = Except.error kv)
      ∧ (∀ kv, initAndPlay bs roboA play gameOver showtime keys
            = Except.error kv →
          (kv ∈ bs ∧ isReserved kv.1 = true)
          ∧ ∀ (showtime' : σ × Option ℚ) (keys' : List Int),
              initAndPlay bs roboA play gameOver showtime' keys'
                = Except.error kv)
      ∧ ((∀ kv ∈ bs, isReserved kv.1 = false) →
          ∃ out, initAndPlay bs roboA play gameOver showtime keys
            = Except.ok out) := by
  intro σ bs roboA play gameOver showtime keys
  rcases hfind : checkBindings bs with _ | kv
  · have hnone : ∀ kv ∈ bs, ¬ isReserved kv.1 = true :=
      List.find?_eq_none.mp hfind
    refine ⟨fun hex => ?_, fun kv herr => ?_, fun _ => ?_⟩
    · obtain ⟨kv, hmem, hres⟩ := hex
      exact absurd hres (hnone kv hmem)
    · rw [initAndPlay, hfind] at herr
      exact absurd herr (by simp)
    · exact ⟨_, by rw [initAndPlay, hfind]⟩
  · have hfind2 : bs.find? (fun x => isReserved x.1) = some kv := hfind
    have hres : isReserved kv.1 = true := by
      simpa using List.find?_some hfind2
    have hmem : kv ∈ bs := List.mem_of_find?_eq_some hfind2
    refine ⟨fun _ => ⟨kv, hmem, hres, by rw [initAndPlay, hfind]⟩,
      fun kv' herr => ?_, fun hall => absurd hres ?_⟩
    · rw [initAndPlay, hfind] at herr
      have hkv : kv = kv' := by
        simpa using herr
      subst hkv
      exact ⟨⟨hmem, hres⟩, fun showtime' keys' => by
        rw [initAndPlay, hfind]⟩
    · rw [hall kv hmem]
      simp

/-- C6, witness: binding Page-Up (339) to action 5 makes the run fail
with that key-action pair before any play, while the chain walk's real
bindings start successfully. -/
theorem C6_reserved_binding_error_witness :
    (∃ kv ∈ [((339 : Int), (5 : Nat))], isReserved kv.1 = true ∧
      initAndPlay [((339 : Int), (5 : Nat))] 1 chainPlay chainOver
          chainShowtime [] = Except.error kv)
    ∧ ∃ out, initAndPlay chainBindings 1 chainPlay chainOver
        chainShowtime [] = Except.ok out :=
  ⟨(C6_reserved_binding_error ChainState [((339 : Int), (5 : Nat))] 1
      chainPlay chainOver chainShowtime []).1 (by decide),
   (C6_reserved_binding_error ChainState chainBindings 1 chainPlay
      chainOver chainShowtime []).2.2 (by decide)⟩

end Pyca
